import Mathlib

/-!
Shallow embedding of `src/examples/sudoku/src/entity.h`, a Sudoku candidate-grid
stub consisting of the class `Puzzle` with a constructor, three unit accessors
(`getRow`, `getColumn`, `getBox`) and a mutator `setValue`.

Modelling conventions:
 - the C++ type alias `Options = std::set<int>` becomes `Finset Int`
   (an ordered set of machine ints; the values used stay far from overflow);
 - the alias `Grid = std::vector<std::vector<Options>>` becomes a list of lists;
 - `setValue` throws `std::invalid_argument`; the embedding returns the pair
   (object state after the call, thrown message if any), since a C++ method
   mutates the object in place and an exception leaves the mutations performed
   before the throw in place;
 - the source indexes `grid[row][col]` with NO bounds check, so an
   out-of-range `row` or `col` is undefined behaviour in C++ (std::vector's
   operator[] is unchecked).  The embedding models the unchecked access with
   the total functions `List.set` / `List.getD`, which are no-ops resp. default
   out of range; what matters for the claims is that the source raises no
   error on that path (the only `throw` in `setValue` is the value guard).
-/

/-- Candidate set of one cell: the alias `Options = std::set<int>`. -/
abbrev Options : Type := Finset Int

/-- Cell matrix: the alias `Grid = std::vector<std::vector<Options>>`. -/
abbrev Grid : Type := List (List Options)

/-- The class `Puzzle`; its only data member is `grid` (left public in the
source, the `private:` line is commented out). -/
structure Puzzle where
  grid : Grid
deriving DecidableEq

/-- Candidate set built by the constructor loop
`for (i = 1; i <= size; i++) defaultData.insert(i)`: the set of ints 1..size. -/
def defaultData (size : Nat) : Options := Finset.Icc 1 (size : Int)

/-- Constructor `Puzzle(size_t size)`: resizes `grid` to `size` rows of `size`
cells each and assigns `defaultData` to every cell. -/
def mkPuzzle (size : Nat) : Puzzle :=
  ⟨List.replicate size (List.replicate size (defaultData size))⟩

/-- Accessor `getRow`: the source body is `return std::vector<Options>();`,
an unconditional empty vector (stub). -/
def getRow (_p : Puzzle) (_n : Nat) : List Options := []

/-- Accessor `getColumn`: the source body is `return std::vector<Options>();`,
an unconditional empty vector (stub). -/
def getColumn (_p : Puzzle) (_m : Nat) : List Options := []

/-- Accessor `getBox`: the source body is `return std::vector<Options>();`,
an unconditional empty vector (stub). -/
def getBox (_p : Puzzle) (_n : Nat) : List Options := []

/-- Body of the range-for in `setValue` applied to one cell of the target row:
skip (`continue`) when `cell.size() == 1 && *cell.begin() == value` (for an
ordered `std::set`, `*begin()` of a size-1 set is its sole element, rendered
here via `Finset.min`), otherwise `cell.erase(value)`. -/
def eliminateCell (value : Int) (cell : Options) : Options :=
  if cell.card = 1 ∧ cell.min = (value : WithBot Int) then cell else cell.erase value

/-- Method `Puzzle::setValue(size_t row, size_t col, int value)`.
Mirrors the source statement by statement:
 1. `if (value <= 0 || value > grid.size()) throw std::invalid_argument(...)`
    — the guard tests only `value`, against the row count `grid.size()`;
 2. `grid[row][col] = Options({value});`
 3. the range-for over `grid[row]` (which at that point already holds the
    freshly written target cell), i.e. `eliminateCell value` mapped over the
    updated row.
Returns the object state after the call together with the thrown message, if
any; when the guard fires the `throw` precedes every mutation, so the state
returned on that path is the unchanged `p`.  There is no bounds check on
`row`/`col` (see the module comment on undefined behaviour). -/
def setValue (p : Puzzle) (row col : Nat) (value : Int) : Puzzle × Option String :=
  if value ≤ 0 ∨ value > (p.grid.length : Int) then
    (p, some ("Bad value " ++ toString value))
  else
    (⟨p.grid.set row (((p.grid.getD row []).set col {value}).map (eliminateCell value))⟩,
      none)

/-- Reading `grid[r][c]`, totalised with defaults for the out-of-range case. -/
def cellAt (p : Puzzle) (r c : Nat) : Options := (p.grid.getD r []).getD c ∅

/-! ### Helper lemmas about the embedded operations -/

/-- The skip test of the range-for recognises exactly the singleton of the
assigned value. -/
lemma eliminateCell_eq (v : Int) (s : Options) :
    eliminateCell v s = if s = {v} then s else s.erase v := by
  unfold eliminateCell
  by_cases h : s = {v}
  · subst h
    rw [if_pos ⟨Finset.card_singleton v, Finset.min_singleton⟩, if_pos rfl]
  · rw [if_neg h]
    rw [if_neg]
    rintro ⟨hcard, hmin⟩
    obtain ⟨a, ha⟩ := Finset.card_eq_one.mp hcard
    subst ha
    rw [Finset.min_singleton] at hmin
    exact h (by rw [WithBot.coe_inj.mp hmin])

/-- Eliminating the same value twice is the same as once. -/
lemma eliminateCell_idem (v : Int) (s : Options) :
    eliminateCell v (eliminateCell v s) = eliminateCell v s := by
  rw [eliminateCell_eq v s]
  by_cases h : s = {v}
  · simp [h, eliminateCell_eq]
  · rw [if_neg h, eliminateCell_eq]
    rw [if_neg]
    · exact Finset.erase_idem
    · intro hcontra
      have : v ∈ s.erase v := hcontra ▸ Finset.mem_singleton_self v
      exact Finset.not_mem_erase v s this

/-- Elimination never empties a non-empty cell: the exact singleton is skipped,
and erasing from any other non-empty set leaves some element behind. -/
lemma eliminateCell_nonempty (v : Int) (s : Options) (hs : s.Nonempty) :
    (eliminateCell v s).Nonempty := by
  rw [eliminateCell_eq]
  by_cases h : s = {v}
  · simp only [if_pos h]
    exact hs
  · rw [if_neg h]
    by_cases hv : v ∈ s
    · have : ∃ x ∈ s, x ≠ v := by
        by_contra hall
        push_neg at hall
        exact h (Finset.eq_singleton_iff_unique_mem.mpr ⟨hv, hall⟩)
      obtain ⟨x, hx, hxv⟩ := this
      exact ⟨x, Finset.mem_erase.mpr ⟨hxv, hx⟩⟩
    · rwa [Finset.erase_eq_of_not_mem hv]

/-- Elimination default case: the empty set stays empty. -/
lemma eliminateCell_empty (v : Int) : eliminateCell v ∅ = ∅ := by
  rw [eliminateCell_eq]
  simp

/-- getD through a `set` at a different index. -/
lemma getD_set_ne {α : Type} (l : List α) (i j : Nat) (x d : α) (h : i ≠ j) :
    (l.set i x).getD j d = l.getD j d := by
  simp [List.getD_eq_getElem?_getD, List.getElem?_set_ne h]

/-- getD through a `set` at the written index, in range. -/
lemma getD_set_self {α : Type} (l : List α) (i : Nat) (x d : α) (h : i < l.length) :
    (l.set i x).getD i d = x := by
  simp [List.getD_eq_getElem?_getD, List.getElem?_set_self, h]

/-- getD through a `map`, for functions fixing the default. -/
lemma getD_map {α : Type} (l : List α) (f : α → α) (j : Nat) (d : α) (hf : f d = d) :
    (l.map f).getD j d = f (l.getD j d) := by
  simp only [List.getD_eq_getElem?_getD, List.getElem?_map]
  cases l[j]? <;> simp [hf]

/-- getD on a replicate, in range. -/
lemma getD_replicate {α : Type} (n i : Nat) (x d : α) (h : i < n) :
    (List.replicate n x).getD i d = x := by
  simp [List.getD_eq_getElem?_getD, List.getElem?_replicate, h]

/-- The successful branch of `setValue`, spelled out. -/
lemma setValue_ok (p : Puzzle) (row col : Nat) (v : Int)
    (hv1 : 1 ≤ v) (hv2 : v ≤ (p.grid.length : Int)) :
    setValue p row col v =
      (⟨p.grid.set row (((p.grid.getD row []).set col {v}).map (eliminateCell v))⟩,
        none) := by
  unfold setValue
  rw [if_neg]
  push_neg
  exact ⟨by omega, hv2⟩

/-- Row count is unchanged by a successful `setValue`. -/
lemma setValue_length (p : Puzzle) (row col : Nat) (v : Int)
    (hv1 : 1 ≤ v) (hv2 : v ≤ (p.grid.length : Int)) :
    (setValue p row col v).1.grid.length = p.grid.length := by
  rw [setValue_ok p row col v hv1 hv2]
  simp

/-- Cells in rows other than the target row are untouched by `setValue`. -/
lemma cellAt_setValue_other_row (p : Puzzle) (row col : Nat) (v : Int)
    (r' c' : Nat) (hv1 : 1 ≤ v) (hv2 : v ≤ (p.grid.length : Int)) (hr : r' ≠ row) :
    cellAt (setValue p row col v).1 r' c' = cellAt p r' c' := by
  rw [setValue_ok p row col v hv1 hv2]
  unfold cellAt
  rw [getD_set_ne _ _ _ _ _ (fun h => hr h.symm)]

/-- The whole target row after a successful `setValue`, as a list. -/
lemma setValue_target_row (p : Puzzle) (row col : Nat) (v : Int)
    (hv1 : 1 ≤ v) (hv2 : v ≤ (p.grid.length : Int)) (hrow : row < p.grid.length) :
    (setValue p row col v).1.grid.getD row [] =
      ((p.grid.getD row []).set col {v}).map (eliminateCell v) := by
  rw [setValue_ok p row col v hv1 hv2]
  exact getD_set_self _ _ _ _ (by simpa using hrow)

/-- Cells of the target row other than the target cell after `setValue`. -/
lemma cellAt_setValue_same_row (p : Puzzle) (row col : Nat) (v : Int)
    (c' : Nat) (hv1 : 1 ≤ v) (hv2 : v ≤ (p.grid.length : Int))
    (hrow : row < p.grid.length) (hc : c' ≠ col) :
    cellAt (setValue p row col v).1 row c' = eliminateCell v (cellAt p row c') := by
  unfold cellAt
  rw [setValue_target_row p row col v hv1 hv2 hrow]
  rw [getD_map _ _ _ _ (eliminateCell_empty v)]
  rw [getD_set_ne _ _ _ _ _ (fun h => hc h.symm)]

/-- Writing back the element already stored at an in-range index is a no-op. -/
lemma set_of_getD_eq {α : Type} (l : List α) (i : Nat) (x d : α)
    (h : i < l.length) (hx : l.getD i d = x) : l.set i x = l := by
  rw [List.getD_eq_getElem l d h] at hx
  apply List.ext_getElem?
  intro n
  by_cases hn : i = n
  · subst hn
    rw [List.getElem?_eq_getElem h]
    simp [List.getElem?_set_self, h, hx]
  · rw [List.getElem?_set_ne hn]

/-- The target cell itself after `setValue`: written to the singleton, then
skipped by the elimination loop. -/
lemma cellAt_setValue_target (p : Puzzle) (row col : Nat) (v : Int)
    (hv1 : 1 ≤ v) (hv2 : v ≤ (p.grid.length : Int))
    (hrow : row < p.grid.length) (hcol : col < (p.grid.getD row []).length) :
    cellAt (setValue p row col v).1 row col = {v} := by
  unfold cellAt
  rw [setValue_target_row p row col v hv1 hv2 hrow]
  rw [getD_map _ _ _ _ (eliminateCell_empty v)]
  rw [getD_set_self _ _ _ _ hcol]
  rw [eliminateCell_eq]
  simp

/-- Elimination never grows a cell. -/
lemma eliminateCell_card_le (v : Int) (s : Options) :
    (eliminateCell v s).card ≤ s.card := by
  rw [eliminateCell_eq]
  by_cases h : s = {v}
  · rw [if_pos h]
  · rw [if_neg h]
    exact Finset.card_erase_le

/-! ### Claim theorems -/

/-- C1: for every in-range row and col and every value v in 1..N,
`setValue(row, col, v)` eliminates v only within its own row: the call
succeeds, every cell in a different row is unchanged, and every other cell of
the target row whose candidate set is not exactly the singleton of v has v
removed from it. -/
theorem setValue_eliminates_only_in_own_row (p : Puzzle) (row col r' c' : Nat)
    (v : Int) (hrow : row < p.grid.length) (_hcol : col < (p.grid.getD row []).length)
    (hv1 : 1 ≤ v) (hv2 : v ≤ (p.grid.length : Int)) :
    (setValue p row col v).2 = none
    ∧ (r' ≠ row → cellAt (setValue p row col v).1 r' c' = cellAt p r' c')
    ∧ (c' ≠ col → cellAt p row c' ≠ {v} →
        cellAt (setValue p row col v).1 row c' = (cellAt p row c').erase v) := by
  refine ⟨?_, ?_, ?_⟩
  · rw [setValue_ok p row col v hv1 hv2]
  · intro hr
    exact cellAt_setValue_other_row p row col v r' c' hv1 hv2 hr
  · intro hc hne
    rw [cellAt_setValue_same_row p row col v c' hv1 hv2 hrow hc]
    rw [eliminateCell_eq, if_neg hne]

/-- Witness for C1 on a concrete 2-by-2 puzzle, assigning 1 at (0,0): the
other row is untouched and the row peer at (0,1) loses the value 1. -/
theorem setValue_eliminates_only_in_own_row_witness :
    (setValue (mkPuzzle 2) 0 0 1).2 = none
    ∧ cellAt (setValue (mkPuzzle 2) 0 0 1).1 1 1 = cellAt (mkPuzzle 2) 1 1
    ∧ cellAt (setValue (mkPuzzle 2) 0 0 1).1 0 1 = (cellAt (mkPuzzle 2) 0 1).erase 1 :=
  ⟨(setValue_eliminates_only_in_own_row (mkPuzzle 2) 0 0 1 1 1
      (by decide) (by decide) (by decide) (by decide)).1,
   (setValue_eliminates_only_in_own_row (mkPuzzle 2) 0 0 1 1 1
      (by decide) (by decide) (by decide) (by decide)).2.1 (by decide),
   (setValue_eliminates_only_in_own_row (mkPuzzle 2) 0 0 0 1 1
      (by decide) (by decide) (by decide) (by decide)).2.2 (by decide) (by decide)⟩

/-- C2 counterexample: on a fresh 2-by-2 puzzle, `setValue(0, 0, 1)` succeeds
yet changes the candidate set of the peer cell (0,1), so the assignment does
propagate to a cell other than the target, contrary to the claim. -/
theorem setValue_changes_row_peer :
    (setValue (mkPuzzle 2) 0 0 1).2 = none
    ∧ cellAt (setValue (mkPuzzle 2) 0 0 1).1 0 1 ≠ cellAt (mkPuzzle 2) 0 1 := by
  decide

/-- C2 amended: a successful in-range `setValue` leaves every cell outside the
target row unchanged; a cell of the target row other than the target keeps its
candidate set when it is exactly the singleton of v and otherwise has v erased
from it. -/
theorem setValue_peer_frame (p : Puzzle) (row col r' c' : Nat) (v : Int)
    (hrow : row < p.grid.length) (_hcol : col < (p.grid.getD row []).length)
    (hv1 : 1 ≤ v) (hv2 : v ≤ (p.grid.length : Int)) :
    (r' ≠ row → cellAt (setValue p row col v).1 r' c' = cellAt p r' c')
    ∧ (c' ≠ col → cellAt (setValue p row col v).1 row c' =
        if cellAt p row c' = {v} then cellAt p row c' else (cellAt p row c').erase v) := by
  refine ⟨?_, ?_⟩
  · intro hr
    exact cellAt_setValue_other_row p row col v r' c' hv1 hv2 hr
  · intro hc
    rw [cellAt_setValue_same_row p row col v c' hv1 hv2 hrow hc]
    exact eliminateCell_eq v (cellAt p row c')

/-- Witness for C2's amended statement at the same concrete instance. -/
theorem setValue_peer_frame_witness :
    cellAt (setValue (mkPuzzle 2) 0 0 1).1 1 0 = cellAt (mkPuzzle 2) 1 0
    ∧ cellAt (setValue (mkPuzzle 2) 0 0 1).1 0 1 =
        if cellAt (mkPuzzle 2) 0 1 = {1} then cellAt (mkPuzzle 2) 0 1
        else (cellAt (mkPuzzle 2) 0 1).erase 1 :=
  ⟨(setValue_peer_frame (mkPuzzle 2) 0 0 1 0 1
      (by decide) (by decide) (by decide) (by decide)).1 (by decide),
   (setValue_peer_frame (mkPuzzle 2) 0 0 0 1 1
      (by decide) (by decide) (by decide) (by decide)).2 (by decide)⟩

/-- C3: the constructor `Puzzle(N)` builds an N-by-N grid whose every cell's
candidate set is exactly the integers 1..N. -/
theorem mkPuzzle_all_cells_full (N r c : Nat) (hr : r < N) (hc : c < N) :
    (mkPuzzle N).grid.length = N
    ∧ ((mkPuzzle N).grid.getD r []).length = N
    ∧ cellAt (mkPuzzle N) r c = Finset.Icc 1 (N : Int) := by
  unfold mkPuzzle cellAt
  refine ⟨by simp, ?_, ?_⟩
  · rw [getD_replicate _ _ _ _ hr]
    simp
  · rw [getD_replicate _ _ _ _ hr, getD_replicate _ _ _ _ hc]
    rfl

/-- Witness for C3 at N = 3, cell (1, 2). -/
theorem mkPuzzle_all_cells_full_witness :
    (mkPuzzle 3).grid.length = 3
    ∧ ((mkPuzzle 3).grid.getD 1 []).length = 3
    ∧ cellAt (mkPuzzle 3) 1 2 = Finset.Icc 1 (3 : Int) :=
  mkPuzzle_all_cells_full 3 1 2 (by decide) (by decide)

/-- C4 (code bug evidence): on a 4-by-4 puzzle, `setValue(5, 0, 2)` has an
out-of-range row, yet the embedded code raises no error: the guard in the
source tests only `value`, and the subsequent `grid[row][col]` access carries
no bounds check (undefined behaviour in the C++, modelled as the total no-op
update), so no out-of-range error is ever surfaced to the caller. -/
theorem setValue_row_out_of_range_unchecked :
    (setValue (mkPuzzle 4) 5 0 2).2 = none
    ∧ (setValue (mkPuzzle 4) 5 0 2).1 = mkPuzzle 4 := by
  decide

/-- C5: a successful in-range `setValue` forces the target cell to exactly the
singleton of the assigned value, whatever it held before, and repeating the
identical call returns the very same grid with no error (idempotence of the
second application). -/
theorem setValue_sets_singleton_and_idempotent (p : Puzzle) (row col : Nat) (v : Int)
    (hrow : row < p.grid.length) (hcol : col < (p.grid.getD row []).length)
    (hv1 : 1 ≤ v) (hv2 : v ≤ (p.grid.length : Int)) :
    cellAt (setValue p row col v).1 row col = {v}
    ∧ setValue (setValue p row col v).1 row col v = ((setValue p row col v).1, none) := by
  have htarget := cellAt_setValue_target p row col v hv1 hv2 hrow hcol
  refine ⟨htarget, ?_⟩
  set q := (setValue p row col v).1 with hq
  have hlen : q.grid.length = p.grid.length := setValue_length p row col v hv1 hv2
  have hv2' : v ≤ (q.grid.length : Int) := by rw [hlen]; exact hv2
  have hrow' : row < q.grid.length := by rw [hlen]; exact hrow
  have hrowq : q.grid.getD row [] =
      ((p.grid.getD row []).set col {v}).map (eliminateCell v) :=
    setValue_target_row p row col v hv1 hv2 hrow
  have hcol' : col < (q.grid.getD row []).length := by
    rw [hrowq]
    simpa using hcol
  have hcell : (q.grid.getD row []).getD col ∅ = {v} := htarget
  have hset : (q.grid.getD row []).set col {v} = q.grid.getD row [] :=
    set_of_getD_eq _ _ _ ∅ hcol' hcell
  have hmap : (q.grid.getD row []).map (eliminateCell v) = q.grid.getD row [] := by
    rw [hrowq, List.map_map]
    have hfun : eliminateCell v ∘ eliminateCell v = eliminateCell v :=
      funext (eliminateCell_idem v)
    rw [hfun]
  rw [setValue_ok q row col v hv1 hv2', hset, hmap]
  rw [set_of_getD_eq q.grid row (q.grid.getD row []) [] hrow' rfl]

/-- Witness for C5 on a concrete 2-by-2 puzzle, assigning 2 at (0,1). -/
theorem setValue_sets_singleton_and_idempotent_witness :
    cellAt (setValue (mkPuzzle 2) 0 1 2).1 0 1 = {2}
    ∧ setValue (setValue (mkPuzzle 2) 0 1 2).1 0 1 2 =
        ((setValue (mkPuzzle 2) 0 1 2).1, none) :=
  setValue_sets_singleton_and_idempotent (mkPuzzle 2) 0 1 2
    (by decide) (by decide) (by decide) (by decide)

/-- C6 counterexample: the grid member is public, so the state with an empty
candidate set at the target cell is a legitimate grid state; on it the
successful in-range call `setValue(0, 0, 1)` raises the target's cardinality
from 0 to 1, so the cardinality does increase somewhere. -/
theorem setValue_card_can_increase :
    (setValue ⟨[[∅]]⟩ 0 0 1).2 = none
    ∧ (⟨[[∅]]⟩ : Puzzle).grid.length = 1
    ∧ (cellAt (⟨[[∅]]⟩ : Puzzle) 0 0).card < (cellAt (setValue ⟨[[∅]]⟩ 0 0 1).1 0 0).card := by
  decide

/-- C6 amended: a successful in-range `setValue` never increases the
cardinality of any cell other than the target; the target becomes the
singleton of the assigned value, which is no increase whenever the target held
at least one candidate before the call. -/
theorem setValue_monotone_shrink (p : Puzzle) (row col r' c' : Nat) (v : Int)
    (hrow : row < p.grid.length) (hcol : col < (p.grid.getD row []).length)
    (hv1 : 1 ≤ v) (hv2 : v ≤ (p.grid.length : Int)) :
    (¬(r' = row ∧ c' = col) →
      (cellAt (setValue p row col v).1 r' c').card ≤ (cellAt p r' c').card)
    ∧ cellAt (setValue p row col v).1 row col = {v}
    ∧ ((cellAt p row col).Nonempty →
      (cellAt (setValue p row col v).1 row col).card ≤ (cellAt p row col).card) := by
  have htarget := cellAt_setValue_target p row col v hv1 hv2 hrow hcol
  refine ⟨?_, htarget, ?_⟩
  · intro hne
    by_cases hr : r' = row
    · subst hr
      have hc : c' ≠ col := fun h => hne ⟨rfl, h⟩
      rw [cellAt_setValue_same_row p r' col v c' hv1 hv2 hrow hc]
      exact eliminateCell_card_le v (cellAt p r' c')
    · rw [cellAt_setValue_other_row p row col v r' c' hv1 hv2 hr]
  · intro hne
    rw [htarget, Finset.card_singleton]
    exact Finset.Nonempty.card_pos hne

/-- Witness for C6's amended statement on a fresh 2-by-2 puzzle. -/
theorem setValue_monotone_shrink_witness :
    (cellAt (setValue (mkPuzzle 2) 0 0 1).1 1 0).card ≤ (cellAt (mkPuzzle 2) 1 0).card
    ∧ cellAt (setValue (mkPuzzle 2) 0 0 1).1 0 0 = {1}
    ∧ (cellAt (setValue (mkPuzzle 2) 0 0 1).1 0 0).card ≤ (cellAt (mkPuzzle 2) 0 0).card :=
  ⟨(setValue_monotone_shrink (mkPuzzle 2) 0 0 1 0 1
      (by decide) (by decide) (by decide) (by decide)).1 (by decide),
   (setValue_monotone_shrink (mkPuzzle 2) 0 0 1 0 1
      (by decide) (by decide) (by decide) (by decide)).2.1,
   (setValue_monotone_shrink (mkPuzzle 2) 0 0 1 0 1
      (by decide) (by decide) (by decide) (by decide)).2.2 (by decide)⟩

/-- C7 counterexample: on a fresh 3-by-3 puzzle, assigning 2 at (0,0) and then
2 at (0,1) leaves two cells of row 0 fixed to the same value, yet the second
call succeeds with no error of any kind: nothing stops, and no Contradiction
is reported on the inconsistent grid. -/
theorem setValue_keeps_duplicate_fixed_values :
    (setValue (setValue (mkPuzzle 3) 0 0 2).1 0 1 2).2 = none
    ∧ cellAt (setValue (setValue (mkPuzzle 3) 0 0 2).1 0 1 2).1 0 0 = {2}
    ∧ cellAt (setValue (setValue (mkPuzzle 3) 0 0 2).1 0 1 2).1 0 1 = {2} := by
  decide

/-- C7 amended: the code performs no contradiction detection at all — a
successful in-range `setValue` reports no error even when another cell of the
row is already fixed to the same value; both cells end fixed to that value and
the inconsistent grid is kept. -/
theorem setValue_reports_no_contradiction (p : Puzzle) (row col c' : Nat) (v : Int)
    (hrow : row < p.grid.length) (hcol : col < (p.grid.getD row []).length)
    (hv1 : 1 ≤ v) (hv2 : v ≤ (p.grid.length : Int))
    (hc' : c' ≠ col) (hfix : cellAt p row c' = {v}) :
    (setValue p row col v).2 = none
    ∧ cellAt (setValue p row col v).1 row c' = {v}
    ∧ cellAt (setValue p row col v).1 row col = {v} := by
  refine ⟨by rw [setValue_ok p row col v hv1 hv2], ?_,
    cellAt_setValue_target p row col v hv1 hv2 hrow hcol⟩
  rw [cellAt_setValue_same_row p row col v c' hv1 hv2 hrow hc']
  rw [hfix, eliminateCell_eq, if_pos rfl]

/-- Witness for C7's amended statement: the duplicate-in-row scenario on a
2-by-2 puzzle. -/
theorem setValue_reports_no_contradiction_witness :
    (setValue (setValue (mkPuzzle 2) 0 0 1).1 0 1 1).2 = none
    ∧ cellAt (setValue (setValue (mkPuzzle 2) 0 0 1).1 0 1 1).1 0 0 = {1}
    ∧ cellAt (setValue (setValue (mkPuzzle 2) 0 0 1).1 0 1 1).1 0 1 = {1} :=
  setValue_reports_no_contradiction (setValue (mkPuzzle 2) 0 0 1).1 0 1 0 1
    (by decide) (by decide) (by decide) (by decide) (by decide) (by decide)

/-- C8 counterexample: on a 9-by-9 puzzle the accessor `getRow(0)` returns 0
cells, not the 9 cells of row 0, so the unit accessors do not return N
elements. -/
theorem getRow_not_full_unit :
    (getRow (mkPuzzle 9) 0).length = 0 ∧ (getRow (mkPuzzle 9) 0).length ≠ 9 := by
  decide

/-- C8 amended: the three unit accessors are unimplemented stubs — for every
puzzle and every index each of them returns the empty sequence. -/
theorem unit_accessors_return_empty (p : Puzzle) (n m k : Nat) :
    getRow p n = [] ∧ getColumn p m = [] ∧ getBox p k = [] :=
  ⟨rfl, rfl, rfl⟩

/-- Sequencing `setValue` calls: each call's resulting object state is threaded
into the next (any thrown message is discarded along the way; the calls used
in the claims below are all valid, hence throw nothing). -/
def applyCalls (p : Puzzle) (calls : List (Nat × Nat × Int)) : Puzzle :=
  calls.foldl (fun q t => (setValue q t.1 t.2.1 t.2.2).1) p

/-- Invariant for C9: the grid is N-by-N and every cell's candidate set is
non-empty. -/
def goodGrid (N : Nat) (p : Puzzle) : Prop :=
  p.grid.length = N ∧ ∀ r, r < N →
    ((p.grid.getD r []).length = N ∧ ∀ c, c < N → (cellAt p r c).Nonempty)

/-- A fresh puzzle of positive size satisfies the invariant. -/
lemma goodGrid_mkPuzzle (N : Nat) (hN : 1 ≤ N) : goodGrid N (mkPuzzle N) := by
  refine ⟨by simp [mkPuzzle], ?_⟩
  intro r hr
  constructor
  · unfold mkPuzzle
    rw [getD_replicate _ _ _ _ hr]
    simp
  · intro c hc
    unfold cellAt mkPuzzle
    rw [getD_replicate _ _ _ _ hr, getD_replicate _ _ _ _ hc]
    unfold defaultData
    rw [Finset.nonempty_Icc]
    exact_mod_cast hN

/-- One valid `setValue` call preserves the invariant. -/
lemma goodGrid_setValue (N : Nat) (p : Puzzle) (row col : Nat) (v : Int)
    (hg : goodGrid N p) (hrow : row < N) (hcol : col < N)
    (hv1 : 1 ≤ v) (hv2 : v ≤ (N : Int)) :
    goodGrid N (setValue p row col v).1 := by
  obtain ⟨hlen, hrows⟩ := hg
  have hrowlt : row < p.grid.length := by rw [hlen]; exact hrow
  have hrowlen : (p.grid.getD row []).length = N := (hrows row hrow).1
  have hcol' : col < (p.grid.getD row []).length := by rw [hrowlen]; exact hcol
  have hv2' : v ≤ (p.grid.length : Int) := by rw [hlen]; exact hv2
  refine ⟨by rw [setValue_length p row col v hv1 hv2']; exact hlen, ?_⟩
  intro r hr
  by_cases hrr : r = row
  · rw [hrr]
    constructor
    · rw [setValue_target_row p row col v hv1 hv2' hrowlt]
      simpa using hrowlen
    · intro c hc
      by_cases hcc : c = col
      · rw [hcc, cellAt_setValue_target p row col v hv1 hv2' hrowlt hcol']
        exact Finset.singleton_nonempty v
      · rw [cellAt_setValue_same_row p row col v c hv1 hv2' hrowlt hcc]
        exact eliminateCell_nonempty v _ ((hrows row hrow).2 c hc)
  · constructor
    · have hrowD : (setValue p row col v).1.grid.getD r [] = p.grid.getD r [] := by
        rw [setValue_ok p row col v hv1 hv2']
        exact getD_set_ne _ _ _ _ _ (fun h => hrr h.symm)
      rw [hrowD]
      exact (hrows r hr).1
    · intro c hc
      rw [cellAt_setValue_other_row p row col v r c hv1 hv2' hrr]
      exact (hrows r hr).2 c hc

/-- Any sequence of valid calls preserves the invariant. -/
lemma applyCalls_goodGrid (N : Nat) (calls : List (Nat × Nat × Int)) :
    ∀ p : Puzzle, goodGrid N p →
      (∀ t ∈ calls, t.1 < N ∧ t.2.1 < N ∧ 1 ≤ t.2.2 ∧ t.2.2 ≤ (N : Int)) →
      goodGrid N (applyCalls p calls) := by
  induction calls with
  | nil =>
      intro p hg _
      exact hg
  | cons t ts ih =>
      intro p hg hv
      have ht := hv t (List.mem_cons_self t ts)
      have hts : ∀ u ∈ ts, u.1 < N ∧ u.2.1 < N ∧ 1 ≤ u.2.2 ∧ u.2.2 ≤ (N : Int) :=
        fun u hu => hv u (List.mem_cons_of_mem t hu)
      exact ih (setValue p t.1 t.2.1 t.2.2).1
        (goodGrid_setValue N p t.1 t.2.1 t.2.2 hg ht.1 ht.2.1 ht.2.2.1 ht.2.2.2) hts

/-- C9: starting from a fresh `Puzzle(N)` with N at least 1, no sequence of
successful in-range `setValue` calls ever produces a cell with an empty
candidate set: every cell of the resulting grid keeps at least one
candidate. -/
theorem setValue_chain_cells_nonempty (N : Nat) (calls : List (Nat × Nat × Int))
    (r c : Nat) (hN : 1 ≤ N)
    (hcalls : ∀ t ∈ calls, t.1 < N ∧ t.2.1 < N ∧ 1 ≤ t.2.2 ∧ t.2.2 ≤ (N : Int))
    (hr : r < N) (hc : c < N) :
    (cellAt (applyCalls (mkPuzzle N) calls) r c).Nonempty :=
  ((applyCalls_goodGrid N calls (mkPuzzle N) (goodGrid_mkPuzzle N hN) hcalls).2 r hr).2 c hc

/-- Witness for C9: two valid calls on a 2-by-2 puzzle leave cell (0,0)
non-empty. -/
theorem setValue_chain_cells_nonempty_witness :
    (cellAt (applyCalls (mkPuzzle 2) [(0, 0, 1), (0, 1, 2)]) 0 0).Nonempty :=
  setValue_chain_cells_nonempty 2 [(0, 0, 1), (0, 1, 2)] 0 0
    (by decide) (by decide) (by decide) (by decide)

/-- C10: when the value guard fires (value at most 0 or above N), `setValue`
raises the invalid-value error and returns the grid exactly as it was: the
check precedes every mutation, so the failed call is atomic. -/
theorem setValue_invalid_value_atomic (p : Puzzle) (row col : Nat) (v : Int)
    (h : v ≤ 0 ∨ v > (p.grid.length : Int)) :
    setValue p row col v = (p, some ("Bad value " ++ toString v)) := by
  unfold setValue
  rw [if_pos h]

/-- Witness for C10: value 0 on a 2-by-2 puzzle throws and leaves the grid
untouched. -/
theorem setValue_invalid_value_atomic_witness :
    setValue (mkPuzzle 2) 0 0 0 = (mkPuzzle 2, some ("Bad value " ++ toString (0 : Int))) :=
  setValue_invalid_value_atomic (mkPuzzle 2) 0 0 0 (Or.inl (by decide))
